import Mathlib

/-
Verification of the neighbor-list construction routine
`neighbor_list_and_relative_vec` from `nequip/data/_nl.py`, together with
the module-level environment checks `_NEQUIP_NL` and `_ERROR_ON_NO_EDGES`.

The three backend search primitives (`ase.neighborlist.primitive_neighbor_list`,
`matscipy.neighbours.neighbour_list`, `vesin.NeighborList.compute`) are
external libraries, not part of this repository; they are modelled as
abstract function parameters collected in a `Backends` record, so every
theorem about the routine is quantified over all possible backend outputs.
The geometry-completion utility `ase.geometry.complete_cell` is likewise
external; it is modelled from the spec on the cases this development needs.

Positions and cells are modelled over ℚ; torch tensor bookkeeping (device,
dtype) is modelled explicitly with `Device` and `Dtype` so that the
device-round-trip and output-placement behavior of the routine is visible.
Python exceptions are modelled by the `NLError` type: a bare `assert`
becomes `NLError.assertionError`, a `raise ValueError(msg)` becomes
`NLError.valueError msg`, and the `NameError` produced when the `NL`
argument matches no backend branch (so `first_idex` is never bound)
becomes `NLError.nameError "first_idex"`.
-/

/-- Three rational coordinates, one atom position (a row of `pos`). -/
abbrev Vec3 := ℚ × ℚ × ℚ

/-- A 3×3 lattice matrix given by its three rows. -/
abbrev Mat3 := Vec3 × Vec3 × Vec3

/-- The all-zero lattice matrix, `np.zeros((3, 3))`. -/
def zeroMat : Mat3 := ((0, 0, 0), (0, 0, 0), (0, 0, 0))

/-- The identity lattice matrix. -/
def idMat : Mat3 := ((1, 0, 0), (0, 1, 0), (0, 0, 1))

/-- Per-axis periodic boundary flags after normalization to a 3-tuple. -/
abbrev Pbc3 := Bool × Bool × Bool

/-- Integer periodic-image shift vector of an edge. -/
abbrev Shift3 := ℤ × ℤ × ℤ

/-- The zero shift vector. -/
def zeroShift : Shift3 := (0, 0, 0)

/-- Componentwise negation of a shift vector. -/
def negShift (s : Shift3) : Shift3 := (-s.1, -s.2.1, -s.2.2)

/-- A directed neighbor-list entry: one column of `edge_index` paired with
its row of `shifts` (`first_idex[k]`, `second_idex[k]`, `shifts[k]`). -/
structure Edge where
  source : ℕ
  target : ℕ
  shift : Shift3
deriving DecidableEq, Repr

/-- Reversal of an edge: swap source and target and negate the shift. -/
def Edge.rev (e : Edge) : Edge := ⟨e.target, e.source, negShift e.shift⟩

/-- The `bad_edge` mask of lines 151-152: a trivial self-edge, i.e.
`first_idex == second_idex` and the whole shift row is zero. -/
def badEdge (e : Edge) : Bool := e.source == e.target && e.shift == zeroShift

/-- An edge list is closed under reversal (full, both-directions list). -/
def RevClosed (l : List Edge) : Prop := ∀ e ∈ l, e.rev ∈ l

/-- Number of trivial self-edges of atom `i` in an edge list. -/
def trivialSelfCount (l : List Edge) (i : ℕ) : ℕ :=
  (l.filter (fun e => badEdge e && e.source == i)).length

/-- A torch dtype, as far as this routine distinguishes them. -/
inductive Dtype
  | float32
  | float64
  | int64
deriving DecidableEq, Repr

/-- A torch device. -/
inductive Device
  | cpu
  | cuda (idx : ℕ)
deriving DecidableEq, Repr

/-- A positions tensor: device, dtype and the N×3 coordinate data. -/
structure PosTensor where
  device : Device
  dtype : Dtype
  data : List Vec3
deriving DecidableEq, Repr

/-- The `pos` argument: either a torch tensor or a plain numpy-like array. -/
inductive PosInput
  | tensor (t : PosTensor)
  | array (data : List Vec3)
deriving DecidableEq, Repr

/-- Host copy of the positions (`temp_pos`, lines 83 and 87). -/
def posData : PosInput → List Vec3
  | .tensor t => t.data
  | .array d => d

/-- The resolved output device (`out_device`, lines 84 and 88). -/
def posDevice : PosInput → Device
  | .tensor t => t.device
  | .array _ => .cpu

/-- The resolved output dtype (`out_dtype`, lines 85 and 89); for a plain
array it falls back to `torch.get_default_dtype()`, passed in as `ddt`. -/
def posDtype (ddt : Dtype) : PosInput → Dtype
  | .tensor t => t.dtype
  | .array _ => ddt

/-- Text of the advisory emitted for accelerator-resident input (line 94). -/
def cpuRoundTripWarning : String :=
  "Currently, neighborlists require a round trip to the CPU. Please pass CPU tensors if possible."

/-- Warnings emitted by the device check of lines 92-95. -/
def deviceWarnings (pos : PosInput) : List String :=
  if posDevice pos ≠ Device.cpu then [cpuRoundTripWarning] else []

/-- The `cell` argument: absent, a torch tensor, or a numpy-like array. -/
inductive CellInput
  | noCell
  | tensor (device : Device) (dtype : Dtype) (data : Mat3)
  | array (data : Mat3)
deriving DecidableEq, Repr

/-- Raw (uncompleted) cell data used to build both `temp_cell` before
completion and `cell_tensor` (lines 98-107): the input data, or the zero
matrix when no cell was supplied. -/
def rawCellData : CellInput → Mat3
  | .noCell => zeroMat
  | .tensor _ _ m => m
  | .array m => m

/-- A returned cell tensor: device, dtype and 3×3 data. -/
structure CellTensor where
  device : Device
  dtype : Dtype
  data : Mat3
deriving DecidableEq, Repr

/-- Modelled from the spec: the external geometry-completion utility
`ase.geometry.complete_cell` (line 110; not part of this repository) fills
missing lattice vectors so downstream routines receive a well-formed 3×3
matrix. Only the two cases this development exercises are modelled: a fully
absent (all-zero) cell completes to the unit lattice, and a cell with no
missing lattice vectors is returned unchanged. -/
def complete_cell (m : Mat3) : Mat3 :=
  if m = zeroMat then idMat else m

/-- The `pbc` argument: a single bool or a 3-tuple of bools. -/
inductive PbcInput
  | scalar (b : Bool)
  | triple (a b c : Bool)
deriving DecidableEq, Repr

/-- Normalization of `pbc` to a 3-tuple (lines 78-79). -/
def normPbc : PbcInput → Pbc3
  | .scalar b => (b, b, b)
  | .triple a b c => (a, b, c)

/-- Python exceptions this routine can raise. -/
inductive NLError
  | assertionError
  | valueError (msg : String)
  | nameError (name : String)
deriving DecidableEq, Repr

/-- Message of the `ValueError` raised for mixed per-axis periodic boundary
conditions on the vesin backend (lines 121-123). -/
def vesinMixedPbcMsg : String :=
  "different periodic boundary conditions on different axes are not supported by vesin neighborlist, use ASE or matscipy"

/-- Message of the `ValueError` raised when no edges remain after removing
trivial self-edges (lines 155-157), naming the cutoff value. -/
def noEdgesMsg (r_max : ℚ) : String :=
  "Every single atom has no neighbors within the cutoff r_max=" ++ toString r_max ++
    " (after eliminating self edges, no edges remain in this system)"

/-- The routine's output: the surviving edges (columns of `edge_index`
paired with rows of the shift tensor) and the torch placement metadata of
the three returned tensors (lines 162-172). -/
structure NLOutput where
  edges : List Edge
  edge_index_device : Device
  edge_index_dtype : Dtype
  shift_device : Device
  shift_dtype : Dtype
  cell : CellTensor
deriving DecidableEq, Repr

/-- Assembly of the outputs (lines 162-172): `edge_index` is built from
`torch.LongTensor`s (int64) and moved to the output device; the shift
tensor is cast to the output dtype and device. -/
def assemble (dev : Device) (dt : Dtype) (cellT : CellTensor) (edges : List Edge) :
    NLOutput :=
  ⟨edges, dev, .int64, dev, dt, cellT⟩

/-- The external backend search primitives, modelled as abstract functions
(the repository only calls them):
`vesin` is `vesin.NeighborList(cutoff, full_list=True).compute(points, box, periodic)`,
`matscipy` is `matscipy.neighbours.neighbour_list("ijS", pbc, cell, positions, cutoff)`,
`ase` is `ase.neighborlist.primitive_neighbor_list("ijS", pbc, cell, positions, cutoff, self_interaction, use_scaled_positions=False)`. -/
structure Backends where
  vesin : ℚ → List Vec3 → Mat3 → Bool → List Edge
  matscipy : Pbc3 → Mat3 → List Vec3 → ℚ → List Edge
  ase : Pbc3 → Mat3 → List Vec3 → ℚ → Bool → List Edge

/-- The self-interaction post-filter and output assembly (lines 149-172):
with `self_interaction` false, drop trivial self-edges, raising the
no-edges `ValueError` when nothing survives and the `_ERROR_ON_NO_EDGES`
policy (`eone`) is active. -/
def postSearch (eone self_interaction : Bool) (r_max : ℚ) (dev : Device) (dt : Dtype)
    (cellT : CellTensor) (edges : List Edge) : Except NLError NLOutput :=
  if self_interaction then .ok (assemble dev dt cellT edges)
  else
    let keep := edges.filter (fun e => !badEdge e)
    if eone && keep.isEmpty then .error (.valueError (noEdgesMsg r_max))
    else .ok (assemble dev dt cellT keep)

/-- Backend dispatch and everything after it (lines 97-172), with the
device/dtype resolution already done: build `cell_tensor` from the raw
cell, complete `temp_cell`, branch on the backend name (capability asserts
at lines 113 and 130, the vesin mixed-PBC check at lines 116-123), run the
search, and post-process. An `NL` value matching no branch leaves
`first_idex` unbound, so its first later use raises a `NameError`. -/
def nlCore (B : Backends) (eone : Bool) (dev : Device) (dt : Dtype)
    (temp_pos : List Vec3) (r_max : ℚ) (self_interaction strict_self_interaction : Bool)
    (cell0 : Mat3) (pbc3 : Pbc3) (NL : String) : Except NLError NLOutput :=
  let cell_tensor : CellTensor := ⟨dev, dt, cell0⟩
  let temp_cell := complete_cell cell0
  if NL = "vesin" then
    if strict_self_interaction && !self_interaction then
      if pbc3.1 && pbc3.2.1 && pbc3.2.2 then
        postSearch eone self_interaction r_max dev dt cell_tensor
          (B.vesin r_max temp_pos temp_cell true)
      else if !pbc3.1 && !pbc3.2.1 && !pbc3.2.2 then
        postSearch eone self_interaction r_max dev dt cell_tensor
          (B.vesin r_max temp_pos temp_cell false)
      else .error (.valueError vesinMixedPbcMsg)
    else .error .assertionError
  else if NL = "matscipy" then
    if strict_self_interaction && !self_interaction then
      postSearch eone self_interaction r_max dev dt cell_tensor
        (B.matscipy pbc3 temp_cell temp_pos r_max)
    else .error .assertionError
  else if NL = "ase" then
    postSearch eone self_interaction r_max dev dt cell_tensor
      (B.ase pbc3 temp_cell temp_pos r_max strict_self_interaction)
  else .error (.nameError "first_idex")

/-- The routine `neighbor_list_and_relative_vec` (lines 34-172): normalize
`pbc`, resolve the host copy of the positions and the output device/dtype,
emit the accelerator advisory when needed, then dispatch. Returns the
emitted warnings alongside the result. -/
def neighbor_list_and_relative_vec (B : Backends) (eone : Bool) (ddt : Dtype)
    (pos : PosInput) (r_max : ℚ) (self_interaction strict_self_interaction : Bool)
    (cell : CellInput) (pbc : PbcInput) (NL : String) :
    List String × Except NLError NLOutput :=
  (deviceWarnings pos,
    nlCore B eone (posDevice pos) (posDtype ddt pos) (posData pos) r_max
      self_interaction strict_self_interaction (rawCellData cell) (normPbc pbc) NL)

/-- Lowercasing of a string (Python `str.lower()`), written over the
character list so that it evaluates by kernel reduction. -/
def strLower (s : String) : String := ⟨s.data.map Char.toLower⟩

/-- The module-level check of `NEQUIP_NL` (lines 26-31): read the
environment value (default "matscipy"), lowercase it, and assert membership
in the enumerated backend set, naming the offending value otherwise. -/
def moduleLoadNL (env : Option String) : Except String String :=
  let v := strLower (env.getD "matscipy")
  if v = "ase" || v = "matscipy" || v = "vesin" then .ok v
  else .error ("Unknown neighborlist NEQUIP_NL = " ++ v)

/-- The module-level parse of `NEQUIP_ERROR_ON_NO_EDGES` (lines 18-20):
read the environment value (default "true"), lowercase it, assert it is
"true" or "false", and produce the boolean policy. -/
def moduleLoadErrorOnNoEdges (env : Option String) : Except String Bool :=
  let v := strLower (env.getD "true")
  if v = "true" then .ok true
  else if v = "false" then .ok false
  else .error "AssertionError"

/-- Predicate identifying a list as a possible output of one of the three
backend search primitives. -/
def OracleOut (B : Backends) (raw : List Edge) : Prop :=
  (∃ c p b per, raw = B.vesin c p b per) ∨
    (∃ p3 b p c, raw = B.matscipy p3 b p c) ∨
    (∃ p3 b p c s, raw = B.ase p3 b p c s)

/-- Backend instance whose searches all come back empty (an isolated atom
with a cutoff below every interatomic and periodic-repeat distance). -/
def Bempty : Backends :=
  ⟨fun _ _ _ _ => [], fun _ _ _ _ => [], fun _ _ _ _ _ => []⟩

/-- The both-directions edge list of the spec's concrete two-atom scenario:
atoms at (0,0,0) and (3/2,0,0), no periodicity, cutoff 2. -/
def twoAtomEdges : List Edge := [⟨0, 1, zeroShift⟩, ⟨1, 0, zeroShift⟩]

/-- Backend instance realizing the two-atom scenario on all three
primitives; the ase primitive additionally includes exactly one trivial
self-pair per atom iff its `self_interaction` parameter is set, as the
external ASE primitive does. -/
def Bpair : Backends :=
  ⟨fun _ _ _ _ => twoAtomEdges,
   fun _ _ _ _ => twoAtomEdges,
   fun _ _ _ _ si =>
     if si then ⟨0, 0, zeroShift⟩ :: ⟨1, 1, zeroShift⟩ :: twoAtomEdges else twoAtomEdges⟩

/-- Modelled from the spec: the external ASE primitive on a single isolated
atom finds no pairs except the trivial self-pair, which it includes exactly
once iff its `self_interaction` parameter is set. -/
def BaseSingleAtom : Backends :=
  ⟨fun _ _ _ _ => [], fun _ _ _ _ => [],
   fun _ _ _ _ si => if si then [⟨0, 0, zeroShift⟩] else []⟩

/-- Positions of the two-atom scenario, as a plain array. -/
def posPair : PosInput := .array [(0, 0, 0), (3/2, 0, 0)]

/-- A single atom at the origin, as a plain array. -/
def posOne : PosInput := .array [(0, 0, 0)]

/-- Output of the two-atom scenario on a cpu array input with no cell. -/
def outPair : NLOutput :=
  ⟨twoAtomEdges, .cpu, .int64, .cpu, .float32, ⟨.cpu, .float32, zeroMat⟩⟩

/-- Output of the two-atom scenario with `self_interaction=True` on the ase
backend: the trivial self-edges survive. -/
def outPairSelf : NLOutput :=
  ⟨⟨0, 0, zeroShift⟩ :: ⟨1, 1, zeroShift⟩ :: twoAtomEdges,
    .cpu, .int64, .cpu, .float32, ⟨.cpu, .float32, zeroMat⟩⟩

/-- The two-atom positions as an accelerator-resident float64 tensor. -/
def posGpuT : PosTensor := ⟨.cuda 0, .float64, [(0, 0, 0), (3/2, 0, 0)]⟩

/-
Helper lemmas about the post-filter and the backend dispatch.
-/

lemma postSearch_ok_edges (eone : Bool) (r : ℚ) (dev : Device) (dt : Dtype)
    (cellT : CellTensor) (raw : List Edge) (out : NLOutput)
    (h : postSearch eone false r dev dt cellT raw = .ok out) :
    out.edges = raw.filter (fun e => !badEdge e) := by
  unfold postSearch at h
  simp only [Bool.false_eq_true, if_false] at h
  by_cases hc : (eone && (raw.filter (fun e => !badEdge e)).isEmpty) = true
  · rw [if_pos hc] at h; exact Except.noConfusion h
  · rw [if_neg hc] at h
    simp only [Except.ok.injEq] at h
    rw [← h]
    rfl

lemma postSearch_true_eq (eone : Bool) (r : ℚ) (dev : Device) (dt : Dtype)
    (cellT : CellTensor) (raw : List Edge) :
    postSearch eone true r dev dt cellT raw = .ok (assemble dev dt cellT raw) := by
  simp [postSearch]

lemma nlCore_cases (B : Backends) (tp : List Vec3) (r : ℚ) (si strict : Bool)
    (c0 : Mat3) (p3 : Pbc3) (NL : String) :
    (∃ raw, OracleOut B raw ∧ ∀ eone dev dt,
        nlCore B eone dev dt tp r si strict c0 p3 NL
          = postSearch eone si r dev dt ⟨dev, dt, c0⟩ raw)
    ∨ (∃ err, (err = NLError.assertionError ∨ err = .valueError vesinMixedPbcMsg ∨
          err = .nameError "first_idex")
        ∧ (err = .valueError vesinMixedPbcMsg → (strict && !si) = true)
        ∧ ∀ eone dev dt,
          nlCore B eone dev dt tp r si strict c0 p3 NL = .error err) := by
  by_cases h1 : NL = "vesin"
  · by_cases h2 : (strict && !si) = true
    · by_cases h3 : (p3.1 && p3.2.1 && p3.2.2) = true
      · refine Or.inl ⟨B.vesin r tp (complete_cell c0) true, Or.inl ⟨_, _, _, _, rfl⟩,
          fun eone dev dt => ?_⟩
        unfold nlCore
        rw [if_pos h1, if_pos h2, if_pos h3]
      · by_cases h4 : (!p3.1 && !p3.2.1 && !p3.2.2) = true
        · refine Or.inl ⟨B.vesin r tp (complete_cell c0) false, Or.inl ⟨_, _, _, _, rfl⟩,
            fun eone dev dt => ?_⟩
          unfold nlCore
          rw [if_pos h1, if_pos h2, if_neg h3, if_pos h4]
        · refine Or.inr ⟨.valueError vesinMixedPbcMsg, Or.inr (Or.inl rfl),
            fun _ => h2, fun eone dev dt => ?_⟩
          unfold nlCore
          rw [if_pos h1, if_pos h2, if_neg h3, if_neg h4]
    · refine Or.inr ⟨.assertionError, Or.inl rfl, fun hcontra => absurd hcontra (by simp),
        fun eone dev dt => ?_⟩
      unfold nlCore
      rw [if_pos h1, if_neg h2]
  · by_cases h5 : NL = "matscipy"
    · by_cases h2 : (strict && !si) = true
      · refine Or.inl ⟨B.matscipy p3 (complete_cell c0) tp r,
          Or.inr (Or.inl ⟨_, _, _, _, rfl⟩), fun eone dev dt => ?_⟩
        unfold nlCore
        rw [if_neg h1, if_pos h5, if_pos h2]
      · refine Or.inr ⟨.assertionError, Or.inl rfl, fun hcontra => absurd hcontra (by simp),
          fun eone dev dt => ?_⟩
        unfold nlCore
        rw [if_neg h1, if_pos h5, if_neg h2]
    · by_cases h6 : NL = "ase"
      · refine Or.inl ⟨B.ase p3 (complete_cell c0) tp r strict,
          Or.inr (Or.inr ⟨_, _, _, _, _, rfl⟩), fun eone dev dt => ?_⟩
        unfold nlCore
        rw [if_neg h1, if_neg h5, if_pos h6]
      · refine Or.inr ⟨.nameError "first_idex", Or.inr (Or.inr rfl),
          fun hcontra => absurd hcontra (by simp), fun eone dev dt => ?_⟩
        unfold nlCore
        rw [if_neg h1, if_neg h5, if_neg h6]

lemma nlCore_ok_inv (B : Backends) (eone : Bool) (dev : Device) (dt : Dtype)
    (tp : List Vec3) (r : ℚ) (si strict : Bool) (c0 : Mat3) (p3 : Pbc3) (NL : String)
    (out : NLOutput) (h : nlCore B eone dev dt tp r si strict c0 p3 NL = .ok out) :
    ∃ raw, postSearch eone si r dev dt ⟨dev, dt, c0⟩ raw = .ok out := by
  rcases nlCore_cases B tp r si strict c0 p3 NL with ⟨raw, _, hr⟩ | ⟨err, _, _, hr⟩
  · exact ⟨raw, (hr eone dev dt).symm.trans h⟩
  · rw [hr eone dev dt] at h; exact Except.noConfusion h

lemma postSearch_ok_meta (eone si : Bool) (r : ℚ) (dev : Device) (dt : Dtype)
    (cellT : CellTensor) (raw : List Edge) (out : NLOutput)
    (h : postSearch eone si r dev dt cellT raw = .ok out) :
    out.cell = cellT ∧ out.edge_index_device = dev ∧ out.shift_device = dev ∧
      out.shift_dtype = dt ∧ out.edge_index_dtype = .int64 := by
  unfold postSearch at h
  by_cases hsi : si = true
  · rw [if_pos hsi] at h
    simp only [Except.ok.injEq] at h
    rw [← h]
    exact ⟨rfl, rfl, rfl, rfl, rfl⟩
  · rw [if_neg hsi] at h
    by_cases hc : (eone && (raw.filter (fun e => !badEdge e)).isEmpty) = true
    · rw [if_pos hc] at h; exact Except.noConfusion h
    · rw [if_neg hc] at h
      simp only [Except.ok.injEq] at h
      rw [← h]
      exact ⟨rfl, rfl, rfl, rfl, rfl⟩

lemma postSearch_flip (r : ℚ) (dev : Device) (dt : Dtype) (cellT : CellTensor)
    (raw : List Edge) (out : NLOutput)
    (h : postSearch false false r dev dt cellT raw = .ok out) (he : out.edges = []) :
    postSearch true false r dev dt cellT raw = .error (.valueError (noEdgesMsg r)) := by
  have hedges := postSearch_ok_edges false r dev dt cellT raw out h
  have hf : raw.filter (fun e => !badEdge e) = [] := hedges.symm.trans he
  simp [postSearch, hf]

lemma postSearch_error_inv (eone si : Bool) (r : ℚ) (dev : Device) (dt : Dtype)
    (cellT : CellTensor) (raw : List Edge) (err : NLError)
    (h : postSearch eone si r dev dt cellT raw = .error err) :
    err = .valueError (noEdgesMsg r) := by
  unfold postSearch at h
  by_cases hsi : si = true
  · rw [if_pos hsi] at h; exact Except.noConfusion h
  · rw [if_neg hsi] at h
    by_cases hc : (eone && (raw.filter (fun e => !badEdge e)).isEmpty) = true
    · rw [if_pos hc] at h
      simp only [Except.error.injEq] at h
      exact h.symm
    · rw [if_neg hc] at h; exact Except.noConfusion h

lemma postSearch_ok_of_ne (eone si : Bool) (r : ℚ) (dev : Device) (dt : Dtype)
    (cellT : CellTensor) (raw : List Edge)
    (hne : raw.filter (fun e => !badEdge e) ≠ []) :
    ∃ out, postSearch eone si r dev dt cellT raw = .ok out := by
  unfold postSearch
  by_cases hsi : si = true
  · rw [if_pos hsi]; exact ⟨_, rfl⟩
  · rw [if_neg hsi]
    have hfe : (raw.filter (fun e => !badEdge e)).isEmpty = false := by
      cases hl : raw.filter (fun e => !badEdge e)
      · exact absurd hl hne
      · rfl
    rw [if_neg (by simp [hfe])]
    exact ⟨_, rfl⟩

lemma postSearch_ok_edges_or (eone si : Bool) (r : ℚ) (dev : Device) (dt : Dtype)
    (cellT : CellTensor) (raw : List Edge) (out : NLOutput)
    (h : postSearch eone si r dev dt cellT raw = .ok out) :
    out.edges = raw ∨ out.edges = raw.filter (fun e => !badEdge e) := by
  cases si
  · exact Or.inr (postSearch_ok_edges eone r dev dt cellT raw out h)
  · rw [postSearch_true_eq] at h
    simp only [Except.ok.injEq] at h
    exact Or.inl (by rw [← h]; rfl)

lemma postSearch_error_iff (eone si : Bool) (r : ℚ) (d d' : Device) (t t' : Dtype)
    (c c' : CellTensor) (raw : List Edge) (err : NLError) :
    postSearch eone si r d t c raw = .error err
      ↔ postSearch eone si r d' t' c' raw = .error err := by
  unfold postSearch
  by_cases hsi : si = true
  · rw [if_pos hsi, if_pos hsi]
    simp
  · rw [if_neg hsi, if_neg hsi]
    by_cases hc : (eone && (raw.filter (fun e => !badEdge e)).isEmpty) = true
    · rw [if_pos hc, if_pos hc]
    · rw [if_neg hc, if_neg hc]
      simp

lemma postSearch_ok_transport (eone si : Bool) (r : ℚ) (d d' : Device) (t t' : Dtype)
    (c c' : CellTensor) (raw : List Edge) (out : NLOutput)
    (h : postSearch eone si r d t c raw = .ok out) :
    ∃ out', postSearch eone si r d' t' c' raw = .ok out' ∧ out'.edges = out.edges := by
  cases si
  · unfold postSearch at h ⊢
    simp only [Bool.false_eq_true, if_false] at h ⊢
    by_cases hc : (eone && (raw.filter (fun e => !badEdge e)).isEmpty) = true
    · rw [if_pos hc] at h; exact Except.noConfusion h
    · rw [if_neg hc] at h
      rw [if_neg hc]
      simp only [Except.ok.injEq] at h
      exact ⟨_, rfl, by rw [← h]; rfl⟩
  · rw [postSearch_true_eq] at h
    rw [postSearch_true_eq]
    simp only [Except.ok.injEq] at h
    exact ⟨_, rfl, by rw [← h]; rfl⟩

lemma nl_matscipy_eq (B : Backends) (eone : Bool) (ddt : Dtype) (pos : PosInput)
    (r : ℚ) (si strict : Bool) (cell : CellInput) (pbc : PbcInput) :
    (neighbor_list_and_relative_vec B eone ddt pos r si strict cell pbc "matscipy").2
      = if (strict && !si) = true then
          postSearch eone si r (posDevice pos) (posDtype ddt pos)
            ⟨posDevice pos, posDtype ddt pos, rawCellData cell⟩
            (B.matscipy (normPbc pbc) (complete_cell (rawCellData cell)) (posData pos) r)
        else .error .assertionError := by
  show nlCore B eone (posDevice pos) (posDtype ddt pos) (posData pos) r si strict
    (rawCellData cell) (normPbc pbc) "matscipy" = _
  unfold nlCore
  rw [if_neg (by decide), if_pos rfl]

lemma nl_vesin_eq (B : Backends) (eone : Bool) (ddt : Dtype) (pos : PosInput)
    (r : ℚ) (si strict : Bool) (cell : CellInput) (pbc : PbcInput) :
    (neighbor_list_and_relative_vec B eone ddt pos r si strict cell pbc "vesin").2
      = if (strict && !si) = true then
          (if ((normPbc pbc).1 && (normPbc pbc).2.1 && (normPbc pbc).2.2) = true then
            postSearch eone si r (posDevice pos) (posDtype ddt pos)
              ⟨posDevice pos, posDtype ddt pos, rawCellData cell⟩
              (B.vesin r (posData pos) (complete_cell (rawCellData cell)) true)
          else if ((!(normPbc pbc).1) && (!(normPbc pbc).2.1) && (!(normPbc pbc).2.2))
              = true then
            postSearch eone si r (posDevice pos) (posDtype ddt pos)
              ⟨posDevice pos, posDtype ddt pos, rawCellData cell⟩
              (B.vesin r (posData pos) (complete_cell (rawCellData cell)) false)
          else .error (.valueError vesinMixedPbcMsg))
        else .error .assertionError := by
  show nlCore B eone (posDevice pos) (posDtype ddt pos) (posData pos) r si strict
    (rawCellData cell) (normPbc pbc) "vesin" = _
  unfold nlCore
  rw [if_pos rfl]

lemma nl_ase_eq (B : Backends) (eone : Bool) (ddt : Dtype) (pos : PosInput)
    (r : ℚ) (si strict : Bool) (cell : CellInput) (pbc : PbcInput) :
    (neighbor_list_and_relative_vec B eone ddt pos r si strict cell pbc "ase").2
      = postSearch eone si r (posDevice pos) (posDtype ddt pos)
          ⟨posDevice pos, posDtype ddt pos, rawCellData cell⟩
          (B.ase (normPbc pbc) (complete_cell (rawCellData cell)) (posData pos) r strict) := by
  show nlCore B eone (posDevice pos) (posDtype ddt pos) (posData pos) r si strict
    (rawCellData cell) (normPbc pbc) "ase" = _
  unfold nlCore
  rw [if_neg (by decide), if_neg (by decide), if_pos rfl]

lemma badEdge_rev (e : Edge) : badEdge e.rev = badEdge e := by
  have hiff : badEdge e.rev = true ↔ badEdge e = true := by
    obtain ⟨s, t, x, y, z⟩ := e
    simp only [badEdge, Edge.rev, negShift, zeroShift, Bool.and_eq_true, beq_iff_eq,
      Prod.mk.injEq, neg_eq_zero]
    constructor
    · rintro ⟨h1, h2⟩; exact ⟨h1.symm, h2⟩
    · rintro ⟨h1, h2⟩; exact ⟨h1.symm, h2⟩
  cases hb : badEdge e
  · cases hr : badEdge e.rev
    · rfl
    · exact absurd (hiff.mp hr) (by simp [hb])
  · exact hiff.mpr hb

lemma revClosed_filter (l : List Edge) (h : RevClosed l) :
    RevClosed (l.filter (fun e => !badEdge e)) := by
  intro e he
  rw [List.mem_filter] at he ⊢
  refine ⟨h e he.1, ?_⟩
  rw [badEdge_rev]
  exact he.2

/-- C1: with `self_interaction=False` (the default), the returned edge list
contains no edge whose source equals its target with shift exactly zero,
regardless of backend, pbc, or cell. -/
theorem C1_no_trivial_self_edges (B : Backends) (eone : Bool) (ddt : Dtype)
    (pos : PosInput) (r : ℚ) (strict : Bool) (cell : CellInput) (pbc : PbcInput)
    (NL : String) (out : NLOutput)
    (h : (neighbor_list_and_relative_vec B eone ddt pos r false strict cell pbc NL).2 = .ok out) :
    ∀ e ∈ out.edges, ¬(e.source = e.target ∧ e.shift = zeroShift) := by
  obtain ⟨raw, hp⟩ := nlCore_ok_inv B eone (posDevice pos) (posDtype ddt pos)
    (posData pos) r false strict (rawCellData cell) (normPbc pbc) NL out h
  have he := postSearch_ok_edges _ _ _ _ _ _ _ hp
  intro e hmem hcontra
  rw [he] at hmem
  have hf := List.mem_filter.mp hmem
  have hb : badEdge e = true := by
    simp [badEdge, hcontra.1, hcontra.2]
  rw [hb] at hf
  exact absurd hf.2 (by simp)

/-- Witness for C1 on the concrete two-atom scenario. -/
theorem C1_no_trivial_self_edges_witness :
    ¬((⟨0, 1, zeroShift⟩ : Edge).source = (⟨0, 1, zeroShift⟩ : Edge).target ∧
      (⟨0, 1, zeroShift⟩ : Edge).shift = zeroShift) :=
  C1_no_trivial_self_edges Bpair true .float32 posPair 2 true .noCell (.scalar false)
    "matscipy" outPair rfl ⟨0, 1, zeroShift⟩ (by decide)

/-- C2 counterexample: a call with no cell supplied returns the zero matrix
as the cell tensor data, while the completed/canonicalized lattice of the
zero cell is the unit lattice; the returned cell is therefore not the
completed lattice. -/
theorem C2_cell_counterexample :
    ((neighbor_list_and_relative_vec Bpair true .float32 posPair 2 false true .noCell
        (.scalar false) "matscipy").2 = .ok outPair)
    ∧ outPair.cell.data = zeroMat
    ∧ complete_cell zeroMat = idMat
    ∧ zeroMat ≠ idMat :=
  ⟨rfl, rfl, rfl, by decide⟩

/-- C2 (amended): for every successful call the returned cell tensor is a
3×3 tensor on the resolved output device and dtype whose data is the raw
input cell (the zero matrix when no cell was supplied); the completed
lattice is passed only to the backend search, not returned. -/
theorem C2_cell_is_raw_input (B : Backends) (eone : Bool) (ddt : Dtype)
    (pos : PosInput) (r : ℚ) (si strict : Bool) (cell : CellInput) (pbc : PbcInput)
    (NL : String) (out : NLOutput)
    (h : (neighbor_list_and_relative_vec B eone ddt pos r si strict cell pbc NL).2
      = .ok out) :
    out.cell = ⟨posDevice pos, posDtype ddt pos, rawCellData cell⟩ := by
  obtain ⟨raw, hp⟩ := nlCore_ok_inv B eone (posDevice pos) (posDtype ddt pos)
    (posData pos) r si strict (rawCellData cell) (normPbc pbc) NL out h
  exact (postSearch_ok_meta _ _ _ _ _ _ _ _ hp).1

/-- Witness for C2 (amended) on the concrete two-atom scenario. -/
theorem C2_cell_is_raw_input_witness :
    outPair.cell = ⟨Device.cpu, Dtype.float32, zeroMat⟩ :=
  C2_cell_is_raw_input Bpair true .float32 posPair 2 false true .noCell (.scalar false)
    "matscipy" outPair rfl

/-- C3: with `self_interaction=False`, whenever the opt-out call (no-edges
policy off) returns an empty edge list — i.e. zero edges remain after
removing trivial self-edges — the same call under the default policy raises
the ValueError whose message names the cutoff value `r_max`; the
environment value NEQUIP_ERROR_ON_NO_EDGES=false parses to the opt-out
policy and the unset variable to the default fatal policy. -/
theorem C3_no_edges_error (B : Backends) (ddt : Dtype) (pos : PosInput) (r : ℚ)
    (strict : Bool) (cell : CellInput) (pbc : PbcInput) (NL : String) (out : NLOutput)
    (hok : (neighbor_list_and_relative_vec B false ddt pos r false strict cell pbc NL).2
      = .ok out)
    (hempty : out.edges = []) :
    ((neighbor_list_and_relative_vec B true ddt pos r false strict cell pbc NL).2
      = .error (.valueError (noEdgesMsg r)))
    ∧ (∃ a b, noEdgesMsg r = a ++ toString r ++ b)
    ∧ moduleLoadErrorOnNoEdges (some "false") = .ok false
    ∧ moduleLoadErrorOnNoEdges none = .ok true := by
  refine ⟨?_, ⟨"Every single atom has no neighbors within the cutoff r_max=",
    " (after eliminating self edges, no edges remain in this system)", rfl⟩, rfl, rfl⟩
  rcases nlCore_cases B (posData pos) r false strict (rawCellData cell) (normPbc pbc) NL
    with ⟨raw, _, hr⟩ | ⟨err, _, _, hr⟩
  · have h0 := (hr false (posDevice pos) (posDtype ddt pos)).symm.trans hok
    have hflip := postSearch_flip r (posDevice pos) (posDtype ddt pos) _ raw out h0 hempty
    exact ((hr true (posDevice pos) (posDtype ddt pos)).trans hflip :)
  · rw [show (neighbor_list_and_relative_vec B false ddt pos r false strict cell pbc NL).2
      = nlCore B false (posDevice pos) (posDtype ddt pos) (posData pos) r false strict
        (rawCellData cell) (normPbc pbc) NL from rfl, hr false] at hok
    exact Except.noConfusion hok

/-- Witness for C3: an isolated atom whose searches all come back empty. -/
theorem C3_no_edges_error_witness :
    (neighbor_list_and_relative_vec Bempty true .float32 posOne 1 false true .noCell
        (.scalar false) "matscipy").2 = .error (.valueError (noEdgesMsg 1)) :=
  (C3_no_edges_error Bempty .float32 posOne 1 true .noCell (.scalar false) "matscipy"
    (assemble .cpu .float32 ⟨.cpu, .float32, zeroMat⟩ []) rfl rfl).1

/-- C4: selecting backend B (matscipy) or C (vesin) with
`self_interaction=True` or `strict_self_interaction=False` fails fast with
the assertion error before any neighbor search is executed (the result is
this error for every backend oracle), while with
`strict_self_interaction=True` and `self_interaction=False` those backends
proceed past the gate: the result is never the assertion error, and for
matscipy it is exactly the post-processing of the backend search. -/
theorem C4_capability_gate (B : Backends) (eone : Bool) (ddt : Dtype) (pos : PosInput)
    (r : ℚ) (si strict : Bool) (cell : CellInput) (pbc : PbcInput) (NL : String)
    (hNL : NL = "matscipy" ∨ NL = "vesin") :
    ((si = true ∨ strict = false) →
      (neighbor_list_and_relative_vec B eone ddt pos r si strict cell pbc NL).2
        = .error .assertionError)
    ∧ (si = false → strict = true →
      (neighbor_list_and_relative_vec B eone ddt pos r si strict cell pbc NL).2
        ≠ .error .assertionError)
    ∧ (si = false → strict = true → NL = "matscipy" →
      (neighbor_list_and_relative_vec B eone ddt pos r si strict cell pbc NL).2
        = postSearch eone si r (posDevice pos) (posDtype ddt pos)
            ⟨posDevice pos, posDtype ddt pos, rawCellData cell⟩
            (B.matscipy (normPbc pbc) (complete_cell (rawCellData cell)) (posData pos)
              r)) := by
  refine ⟨?_, ?_, ?_⟩
  · intro hbad
    have hb : ¬((strict && !si) = true) := by
      rcases hbad with h | h
      · rw [h]; simp
      · rw [h]; simp
    rcases hNL with h | h <;> subst h
    · rw [nl_matscipy_eq, if_neg hb]
    · rw [nl_vesin_eq, if_neg hb]
  · intro hsi hstrict hcontra
    subst hsi; subst hstrict
    rcases hNL with h | h <;> subst h
    · rw [nl_matscipy_eq, if_pos (by decide)] at hcontra
      exact NLError.noConfusion (postSearch_error_inv _ _ _ _ _ _ _ _ hcontra)
    · rw [nl_vesin_eq, if_pos (by decide)] at hcontra
      by_cases h3 : ((normPbc pbc).1 && (normPbc pbc).2.1 && (normPbc pbc).2.2) = true
      · rw [if_pos h3] at hcontra
        exact NLError.noConfusion (postSearch_error_inv _ _ _ _ _ _ _ _ hcontra)
      · rw [if_neg h3] at hcontra
        by_cases h4 : ((!(normPbc pbc).1) && (!(normPbc pbc).2.1) && (!(normPbc pbc).2.2))
            = true
        · rw [if_pos h4] at hcontra
          exact NLError.noConfusion (postSearch_error_inv _ _ _ _ _ _ _ _ hcontra)
        · rw [if_neg h4] at hcontra
          simp at hcontra
  · intro hsi hstrict hm
    subst hsi; subst hstrict; subst hm
    rw [nl_matscipy_eq, if_pos (by decide)]

/-- Witness for C4: matscipy rejects `self_interaction=True`. -/
theorem C4_capability_gate_witness :
    (neighbor_list_and_relative_vec Bpair true .float32 posPair 2 true true .noCell
        (.scalar false) "matscipy").2 = .error .assertionError :=
  (C4_capability_gate Bpair true .float32 posPair 2 true true .noCell (.scalar false)
    "matscipy" (Or.inl rfl)).1 (Or.inl rfl)

/-- C5 counterexample: a mixed-PBC request against backend A (ase) that
does not succeed: when every search comes back empty (an isolated atom with
a small cutoff), the identical request raises the no-edges ValueError, so
the claim that the mixed-PBC call against backend A always succeeds is
false at this input. -/
theorem C5_mixed_pbc_counterexample :
    (neighbor_list_and_relative_vec Bempty true .float32 posOne 1 false true .noCell
        (.triple true false true) "ase").2 = .error (.valueError (noEdgesMsg 1)) := rfl

/-- C5 (amended): for every call with mixed per-axis pbc flags, backend C
(vesin) raises a configuration error before the search (the mixed-pbc
ValueError under conformant self-interaction flags, the assertion error
otherwise), while the identical call against backend A (ase) is never
rejected by a configuration check: it proceeds to the search, can fail only
with the no-edges error, and succeeds whenever an edge survives the
self-edge filter. -/
theorem C5_mixed_pbc (B : Backends) (eone : Bool) (ddt : Dtype) (pos : PosInput)
    (r : ℚ) (si strict : Bool) (cell : CellInput) (pbc : PbcInput)
    (hmix1 : ((normPbc pbc).1 && (normPbc pbc).2.1 && (normPbc pbc).2.2) = false)
    (hmix2 : ((!(normPbc pbc).1) && (!(normPbc pbc).2.1) && (!(normPbc pbc).2.2))
      = false) :
    ((neighbor_list_and_relative_vec B eone ddt pos r si strict cell pbc "vesin").2
      = .error (if strict && !si then .valueError vesinMixedPbcMsg
          else .assertionError))
    ∧ ((neighbor_list_and_relative_vec B eone ddt pos r si strict cell pbc "ase").2
        = postSearch eone si r (posDevice pos) (posDtype ddt pos)
            ⟨posDevice pos, posDtype ddt pos, rawCellData cell⟩
            (B.ase (normPbc pbc) (complete_cell (rawCellData cell)) (posData pos) r
              strict))
    ∧ (∀ err, (neighbor_list_and_relative_vec B eone ddt pos r si strict cell pbc
        "ase").2 = .error err → err = .valueError (noEdgesMsg r))
    ∧ (((B.ase (normPbc pbc) (complete_cell (rawCellData cell)) (posData pos) r
          strict).filter (fun e => !badEdge e)) ≠ [] →
        ∃ out, (neighbor_list_and_relative_vec B eone ddt pos r si strict cell pbc
          "ase").2 = .ok out) := by
  refine ⟨?_, nl_ase_eq B eone ddt pos r si strict cell pbc, ?_, ?_⟩
  · rw [nl_vesin_eq]
    by_cases hg : (strict && !si) = true
    · rw [if_pos hg, if_neg (by simp [hmix1]), if_neg (by simp [hmix2]), if_pos hg]
    · rw [if_neg hg, if_neg hg]
  · intro err herr
    rw [nl_ase_eq] at herr
    exact postSearch_error_inv _ _ _ _ _ _ _ _ herr
  · intro hne
    rw [nl_ase_eq]
    exact postSearch_ok_of_ne _ _ _ _ _ _ _ hne

/-- Witness for C5 (amended): vesin rejects pbc=(True, False, True). -/
theorem C5_mixed_pbc_witness :
    (neighbor_list_and_relative_vec Bpair true .float32 posPair 2 false true .noCell
        (.triple true false true) "vesin").2
      = .error (if true && !false then .valueError vesinMixedPbcMsg
          else .assertionError) :=
  (C5_mixed_pbc Bpair true .float32 posPair 2 false true .noCell (.triple true false true)
    rfl rfl).1

/-- C6 counterexample: with `self_interaction=True` but
`strict_self_interaction=False`, the ase primitive is invoked with its
self-interaction parameter off, so a single isolated atom gets zero trivial
self-edges in the returned list, not exactly one. -/
theorem C6_self_edge_counterexample :
    ((neighbor_list_and_relative_vec BaseSingleAtom true .float32 posOne 1 true false
        .noCell (.scalar false) "ase").2
      = .ok (assemble .cpu .float32 ⟨.cpu, .float32, zeroMat⟩ []))
    ∧ trivialSelfCount [] 0 = 0 := ⟨rfl, rfl⟩

/-- C6 (amended): with `self_interaction=True`,
`strict_self_interaction=True` (the default) and backend A (ase), the
returned list contains exactly one trivial self-edge for an atom whenever
the ase primitive, invoked with its self-interaction parameter set, returns
exactly one for that atom (which the external primitive does for every
atom of every system). -/
theorem C6_one_trivial_self_edge (B : Backends) (eone : Bool) (ddt : Dtype)
    (pos : PosInput) (r : ℚ) (cell : CellInput) (pbc : PbcInput) (i : ℕ) (out : NLOutput)
    (hase : trivialSelfCount
        (B.ase (normPbc pbc) (complete_cell (rawCellData cell)) (posData pos) r true) i
      = 1)
    (h : (neighbor_list_and_relative_vec B eone ddt pos r true true cell pbc "ase").2
      = .ok out) :
    trivialSelfCount out.edges i = 1 := by
  rw [nl_ase_eq, postSearch_true_eq] at h
  simp only [Except.ok.injEq] at h
  rw [← h]
  exact hase

/-- Witness for C6 (amended) on the two-atom scenario. -/
theorem C6_one_trivial_self_edge_witness :
    trivialSelfCount outPairSelf.edges 0 = 1 :=
  C6_one_trivial_self_edge Bpair true .float32 posPair 2 .noCell (.scalar false) 0
    outPairSelf (by decide) rfl

/-- C7: whenever every backend primitive returns a reversal-closed (full,
both-directions) list, the edge set of every successful call is closed
under reversal: for each returned edge (s, t, shift), the edge
(t, s, -shift) is also returned. -/
theorem C7_reversal_closed (B : Backends) (eone : Bool) (ddt : Dtype) (pos : PosInput)
    (r : ℚ) (si strict : Bool) (cell : CellInput) (pbc : PbcInput) (NL : String)
    (out : NLOutput)
    (hv : ∀ c p b per, RevClosed (B.vesin c p b per))
    (hm : ∀ p3 b p c, RevClosed (B.matscipy p3 b p c))
    (ha : ∀ p3 b p c s, RevClosed (B.ase p3 b p c s))
    (h : (neighbor_list_and_relative_vec B eone ddt pos r si strict cell pbc NL).2
      = .ok out) :
    RevClosed out.edges := by
  rcases nlCore_cases B (posData pos) r si strict (rawCellData cell) (normPbc pbc) NL
    with ⟨raw, horacle, hr⟩ | ⟨err, _, _, hr⟩
  · have h0 := (hr eone (posDevice pos) (posDtype ddt pos)).symm.trans h
    have hclosed : RevClosed raw := by
      rcases horacle with ⟨c, p, b, per, hq⟩ | ⟨p3, b, p, c, hq⟩ | ⟨p3, b, p, c, s, hq⟩
      · rw [hq]; exact hv c p b per
      · rw [hq]; exact hm p3 b p c
      · rw [hq]; exact ha p3 b p c s
    rcases postSearch_ok_edges_or eone si r (posDevice pos) (posDtype ddt pos) _ raw out h0
      with he | he
    · rw [he]; exact hclosed
    · rw [he]; exact revClosed_filter raw hclosed
  · rw [show (neighbor_list_and_relative_vec B eone ddt pos r si strict cell pbc NL).2
      = nlCore B eone (posDevice pos) (posDtype ddt pos) (posData pos) r si strict
        (rawCellData cell) (normPbc pbc) NL from rfl,
      hr eone (posDevice pos) (posDtype ddt pos)] at h
    exact Except.noConfusion h

/-- Witness for C7 on the two-atom scenario. -/
theorem C7_reversal_closed_witness : RevClosed outPair.edges :=
  C7_reversal_closed Bpair true .float32 posPair 2 false true .noCell (.scalar false)
    "matscipy" outPair
    (fun _ _ _ _ => by show ∀ e ∈ twoAtomEdges, e.rev ∈ twoAtomEdges; decide)
    (fun _ _ _ _ => by show ∀ e ∈ twoAtomEdges, e.rev ∈ twoAtomEdges; decide)
    (fun _ _ _ _ s => by
      cases s
      · show ∀ e ∈ twoAtomEdges, e.rev ∈ twoAtomEdges
        decide
      · show ∀ e ∈ ⟨0, 0, zeroShift⟩ :: ⟨1, 1, zeroShift⟩ :: twoAtomEdges,
          e.rev ∈ ⟨0, 0, zeroShift⟩ :: ⟨1, 1, zeroShift⟩ :: twoAtomEdges
        decide)
    rfl

/-- C8: for a positions tensor on a non-host device the call emits the
non-fatal advisory, never fails on account of the device (it fails exactly
when, and how, the identical host-tensor call fails), performs the search
on the host copy, and places results on the original input device with the
shift and cell tensors in the input's floating dtype. -/
theorem C8_device_round_trip (B : Backends) (eone : Bool) (ddt : Dtype) (t : PosTensor)
    (r : ℚ) (si strict : Bool) (cell : CellInput) (pbc : PbcInput) (NL : String)
    (hdev : t.device ≠ .cpu) :
    ((neighbor_list_and_relative_vec B eone ddt (.tensor t) r si strict cell pbc NL).1
      = [cpuRoundTripWarning])
    ∧ (∀ err,
        (neighbor_list_and_relative_vec B eone ddt (.tensor t) r si strict cell pbc
          NL).2 = .error err ↔
        (neighbor_list_and_relative_vec B eone ddt
          (.tensor ⟨.cpu, t.dtype, t.data⟩) r si strict cell pbc NL).2 = .error err)
    ∧ (∀ out,
        (neighbor_list_and_relative_vec B eone ddt (.tensor t) r si strict cell pbc
          NL).2 = .ok out →
        out.edge_index_device = t.device ∧ out.shift_device = t.device ∧
          out.cell.device = t.device ∧ out.shift_dtype = t.dtype ∧
          out.cell.dtype = t.dtype ∧
          ∃ out', (neighbor_list_and_relative_vec B eone ddt
              (.tensor ⟨.cpu, t.dtype, t.data⟩) r si strict cell pbc NL).2 = .ok out'
            ∧ out'.edges = out.edges) := by
  refine ⟨?_, ?_, ?_⟩
  · show deviceWarnings (.tensor t) = [cpuRoundTripWarning]
    simp [deviceWarnings, posDevice, hdev]
  · intro err
    rcases nlCore_cases B t.data r si strict (rawCellData cell) (normPbc pbc) NL
      with ⟨raw, _, hr⟩ | ⟨e, _, _, hr⟩
    · show nlCore B eone t.device t.dtype t.data r si strict (rawCellData cell)
        (normPbc pbc) NL = .error err ↔ nlCore B eone .cpu t.dtype t.data r si strict
        (rawCellData cell) (normPbc pbc) NL = .error err
      rw [hr eone t.device t.dtype, hr eone .cpu t.dtype]
      exact postSearch_error_iff eone si r t.device .cpu t.dtype t.dtype _ _ raw err
    · show nlCore B eone t.device t.dtype t.data r si strict (rawCellData cell)
        (normPbc pbc) NL = .error err ↔ nlCore B eone .cpu t.dtype t.data r si strict
        (rawCellData cell) (normPbc pbc) NL = .error err
      rw [hr eone t.device t.dtype, hr eone .cpu t.dtype]
  · intro out hok
    rcases nlCore_cases B t.data r si strict (rawCellData cell) (normPbc pbc) NL
      with ⟨raw, _, hr⟩ | ⟨e, _, _, hr⟩
    · have h0 : postSearch eone si r t.device t.dtype
          ⟨t.device, t.dtype, rawCellData cell⟩ raw = .ok out :=
        (hr eone t.device t.dtype).symm.trans hok
      obtain ⟨hcell, hed, hsd, hst, _⟩ := postSearch_ok_meta _ _ _ _ _ _ _ _ h0
      obtain ⟨out', hps', hedges⟩ := postSearch_ok_transport eone si r t.device .cpu
        t.dtype t.dtype ⟨t.device, t.dtype, rawCellData cell⟩
        ⟨.cpu, t.dtype, rawCellData cell⟩ raw out h0
      refine ⟨hed, hsd, by rw [hcell], hst, by rw [hcell], out', ?_, hedges⟩
      show nlCore B eone .cpu t.dtype t.data r si strict (rawCellData cell)
        (normPbc pbc) NL = .ok out'
      rw [hr eone .cpu t.dtype]
      exact hps'
    · rw [show (neighbor_list_and_relative_vec B eone ddt (.tensor t) r si strict cell
          pbc NL).2 = nlCore B eone t.device t.dtype t.data r si strict
          (rawCellData cell) (normPbc pbc) NL from rfl, hr eone t.device t.dtype] at hok
      exact Except.noConfusion hok

/-- Witness for C8: the two-atom scenario on a cuda float64 tensor. -/
theorem C8_device_round_trip_witness :
    (neighbor_list_and_relative_vec Bpair true .float32 (.tensor posGpuT) 2 false true
        .noCell (.scalar false) "matscipy").1 = [cpuRoundTripWarning] :=
  (C8_device_round_trip Bpair true .float32 posGpuT 2 false true .noCell (.scalar false)
    "matscipy" (by decide)).1

/-- C9: with `self_interaction=True` the no-edges error branch is
unreachable: the call never raises any ValueError (in particular not the
no-edges one), and on the ase backend it returns exactly the edge list the
backend produced, including an empty one, without raising. -/
theorem C9_no_edges_unreachable (B : Backends) (eone : Bool) (ddt : Dtype)
    (pos : PosInput) (r : ℚ) (strict : Bool) (cell : CellInput) (pbc : PbcInput)
    (NL : String) :
    (∀ m, (neighbor_list_and_relative_vec B eone ddt pos r true strict cell pbc NL).2
        ≠ .error (.valueError m))
    ∧ (NL = "ase" →
      (neighbor_list_and_relative_vec B eone ddt pos r true strict cell pbc NL).2
        = .ok (assemble (posDevice pos) (posDtype ddt pos)
            ⟨posDevice pos, posDtype ddt pos, rawCellData cell⟩
            (B.ase (normPbc pbc) (complete_cell (rawCellData cell)) (posData pos) r
              strict))) := by
  constructor
  · intro m hcontra
    rcases nlCore_cases B (posData pos) r true strict (rawCellData cell) (normPbc pbc) NL
      with ⟨raw, _, hr⟩ | ⟨err, herr, hves, hr⟩
    · rw [show (neighbor_list_and_relative_vec B eone ddt pos r true strict cell pbc
          NL).2 = nlCore B eone (posDevice pos) (posDtype ddt pos) (posData pos) r true
          strict (rawCellData cell) (normPbc pbc) NL from rfl,
        hr eone (posDevice pos) (posDtype ddt pos), postSearch_true_eq] at hcontra
      exact Except.noConfusion hcontra
    · rw [show (neighbor_list_and_relative_vec B eone ddt pos r true strict cell pbc
          NL).2 = nlCore B eone (posDevice pos) (posDtype ddt pos) (posData pos) r true
          strict (rawCellData cell) (normPbc pbc) NL from rfl,
        hr eone (posDevice pos) (posDtype ddt pos)] at hcontra
      simp only [Except.error.injEq] at hcontra
      rcases herr with h | h | h
      · rw [h] at hcontra; exact NLError.noConfusion hcontra
      · have := hves h
        simp at this
      · rw [h] at hcontra; exact NLError.noConfusion hcontra
  · intro hNL
    subst hNL
    rw [nl_ase_eq, postSearch_true_eq]

/-- Witness for C9: an empty ase search with `self_interaction=True`
returns an empty edge list without raising. -/
theorem C9_no_edges_unreachable_witness :
    (neighbor_list_and_relative_vec Bempty true .float32 posOne 1 true true .noCell
        (.scalar false) "ase").2
      = .ok (assemble .cpu .float32 ⟨.cpu, .float32, zeroMat⟩ []) :=
  (C9_no_edges_unreachable Bempty true .float32 posOne 1 true .noCell (.scalar false)
    "ase").2 rfl

/-- C10: the enumerated backend-name check runs only at module import on
the NEQUIP_NL environment value (defaulting to matscipy, and naming the
offending value when it is outside the set); a call with an explicit NL
argument outside the set takes no backend branch and fails with the
undefined-name error after the device and cell preprocessing (the device
warnings are still emitted), which is neither a ValueError nor the
assertion error. -/
theorem C10_unknown_backend (B : Backends) (eone : Bool) (ddt : Dtype) (pos : PosInput)
    (r : ℚ) (si strict : Bool) (cell : CellInput) (pbc : PbcInput) (NL : String)
    (h1 : NL ≠ "vesin") (h2 : NL ≠ "matscipy") (h3 : NL ≠ "ase") :
    (neighbor_list_and_relative_vec B eone ddt pos r si strict cell pbc NL
      = (deviceWarnings pos, .error (.nameError "first_idex")))
    ∧ (∀ m, NLError.nameError "first_idex" ≠ .valueError m)
    ∧ NLError.nameError "first_idex" ≠ .assertionError
    ∧ (∀ s : String, strLower s ≠ "ase" → strLower s ≠ "matscipy" →
        strLower s ≠ "vesin" →
        moduleLoadNL (some s) = .error ("Unknown neighborlist NEQUIP_NL = " ++
          strLower s))
    ∧ moduleLoadNL none = .ok "matscipy" := by
  refine ⟨?_, fun m h => NLError.noConfusion h, fun h => NLError.noConfusion h,
    ?_, rfl⟩
  · have hcore : nlCore B eone (posDevice pos) (posDtype ddt pos) (posData pos) r si
        strict (rawCellData cell) (normPbc pbc) NL
        = .error (.nameError "first_idex") := by
      unfold nlCore
      rw [if_neg h1, if_neg h2, if_neg h3]
    show (deviceWarnings pos, nlCore B eone (posDevice pos) (posDtype ddt pos)
      (posData pos) r si strict (rawCellData cell) (normPbc pbc) NL)
      = (deviceWarnings pos, .error (.nameError "first_idex"))
    rw [hcore]
  · intro s hs1 hs2 hs3
    unfold moduleLoadNL
    rw [if_neg (by simp [hs1, hs2, hs3])]
    rfl

/-- Witness for C10: an explicit unknown backend name. -/
theorem C10_unknown_backend_witness :
    neighbor_list_and_relative_vec Bpair true .float32 posPair 2 false true .noCell
        (.scalar false) "faiss"
      = ([], .error (.nameError "first_idex")) :=
  (C10_unknown_backend Bpair true .float32 posPair 2 false true .noCell (.scalar false)
    "faiss" (by decide) (by decide) (by decide)).1
